import Mathlib

/-!
Verification development for the form-builder repository.

The repository contains two parallel implementations of the same
application: the named files under `src/` (AppContext.tsx,
TemplateBuilder.tsx, FormFiller in part_003, ...) and a single-file
variant (part_000).  Definitions suffixed `_v1` / `Ctx` / `_builder`
embed the named-file variant; definitions suffixed `_v0` embed the
single-file variant (part_000).  Machine state (React `useState` plus
`localStorage` write-through) is modelled as explicit values: the
provider state is the pair of the template list and the submission
list, and each handler is a pure function from old state to new state.
`Date.now()` / `new Date().toISOString()` timestamps are passed in as
an explicit `now` argument.
-/

namespace FormBuilder

/-- The five field kinds of `FormField.type` in types/form.ts. -/
inductive FieldType
  | label
  | text
  | number
  | bool
  | enum
deriving DecidableEq

/-- Heading styles for label-type fields (`labelStyle` in types/form.ts). -/
inductive LabelStyle
  | h1
  | h2
  | h3
deriving DecidableEq

/-- A JavaScript value as it can occur in a form value map or in the
`value` slot of a field: a string, a boolean, or a number.  (The `any`-typed value
maps in the source only ever hold these.) -/
inductive JSValue
  | vStr (s : String)
  | vBool (b : Bool)
  | vNum (n : Int)
deriving DecidableEq

/-- JavaScript truthiness of a `JSValue`: `""`, `false` and `0` are falsy. -/
def JSValue.truthy : JSValue → Bool
  | .vStr s => !(s == "")
  | .vBool b => b
  | .vNum n => !(n == 0)

/-- Truthiness of a possibly-absent value (`undefined` is falsy). -/
def jsTruthyOpt : Option JSValue → Bool
  | none => false
  | some v => v.truthy

/-- The character class trimmed by JavaScript `String.prototype.trim`
(space, tab, newline, carriage return, vertical tab, form feed). -/
def jsWhitespace (c : Char) : Bool :=
  c == ' ' || c == '\t' || c == '\n' || c == '\r' || c.val == 11 || c.val == 12

/-- JavaScript `s.trim()`. -/
def jsTrim (s : String) : String :=
  ⟨((s.data.dropWhile jsWhitespace).reverse.dropWhile jsWhitespace).reverse⟩

/-- `FormField` from types/form.ts.  Optional attributes are `Option`s;
an absent (`undefined`) attribute is `none`.  The part_000 variant calls
its label-style attribute `style`; it is the same slot. -/
structure FormField where
  id : String
  type : FieldType
  label : String
  labelStyle : Option LabelStyle := none
  options : Option (List String) := none
  required : Option Bool := none
  value : Option JSValue := none
deriving DecidableEq

/-- `FormSection` from types/form.ts. -/
structure FormSection where
  id : String
  title : String
  fields : List FormField
deriving DecidableEq

/-- `FormTemplate` from types/form.ts. -/
structure FormTemplate where
  id : String
  name : String
  sections : List FormSection
  createdAt : String
  updatedAt : String
deriving DecidableEq

/-- `FormSubmission` from types/form.ts (named-file variant: no own id). -/
structure FormSubmission where
  templateId : String
  data : List (String × JSValue)
  submittedAt : String
deriving DecidableEq

/-- All fields of a template in section order then field order — the
iteration order of the nested `forEach` loops in both validators. -/
def allFields (t : FormTemplate) : List FormField :=
  t.sections.foldr (fun s acc => s.fields ++ acc) []

/-- Nonempty run of decimal digits. -/
def decDigits (cs : List Char) : Bool :=
  !cs.isEmpty && cs.all Char.isDigit

/-- Optionally signed nonempty run of decimal digits (an exponent body). -/
def signedDigits : List Char → Bool
  | [] => false
  | c :: rest =>
    if c == '+' || c == '-' then decDigits rest else decDigits (c :: rest)

/-- Either nothing, or a decimal exponent `e`/`E` followed by signed digits. -/
def expOrEmpty : List Char → Bool
  | [] => true
  | c :: rest => (c == 'e' || c == 'E') && signedDigits rest

/-- An unsigned decimal literal: digits, `digits.digits*`, `.digits`,
each with an optional exponent part. -/
def isUnsignedDecimal (cs : List Char) : Bool :=
  let intPart := cs.takeWhile Char.isDigit
  let rest := cs.dropWhile Char.isDigit
  match rest with
  | [] => !intPart.isEmpty
  | c :: rest2 =>
    if c == '.' then
      let fracPart := rest2.takeWhile Char.isDigit
      let rest3 := rest2.dropWhile Char.isDigit
      (!intPart.isEmpty || !fracPart.isEmpty) && expOrEmpty rest3
    else
      !intPart.isEmpty && expOrEmpty rest

/-- A hex / binary / octal literal (`0x…`, `0b…`, `0o…`). -/
def isRadixLiteral : List Char → Bool
  | c0 :: c :: rest =>
    c0 == '0' &&
      (if c == 'x' || c == 'X' then
        !rest.isEmpty && rest.all fun d =>
          d.isDigit || ('a' ≤ d && d ≤ 'f') || ('A' ≤ d && d ≤ 'F')
      else if c == 'b' || c == 'B' then
        !rest.isEmpty && rest.all fun d => d == '0' || d == '1'
      else if c == 'o' || c == 'O' then
        !rest.isEmpty && rest.all fun d => '0' ≤ d && d ≤ '7'
      else false)
  | _ => false

/-- Whether JavaScript `Number(s)` on a string yields a non-NaN number:
after trimming, the empty string converts to `0`, otherwise the string
must be an optionally signed decimal literal, `Infinity`, or an
unsigned radix literal.  This is the string-conversion semantics behind
the `isNaN(Number(value))` test of both validators. -/
def isJsNumericString (s : String) : Bool :=
  match (jsTrim s).data with
  | [] => true
  | c :: rest =>
    if c == '+' || c == '-' then
      rest == "Infinity".data || isUnsignedDecimal rest
    else
      (c :: rest) == "Infinity".data || isUnsignedDecimal (c :: rest)
        || isRadixLiteral (c :: rest)

/-- `isNaN(Number(value))` on a possibly-absent value:
`Number(undefined)` is NaN, booleans convert to `0`/`1`, numbers are
themselves, strings convert as `isJsNumericString`. -/
def jsNumberIsNaN : Option JSValue → Bool
  | none => true
  | some (.vStr s) => !(isJsNumericString s)
  | some (.vBool _) => false
  | some (.vNum _) => false

/-- `field.required` is truthy (an absent attribute is `undefined`,
which is falsy). -/
def reqTruthy (f : FormField) : Bool :=
  f.required.getD false

/-- JavaScript object assignment `m[k] = v` on a string-keyed record
kept as an insertion-ordered association list: an existing key keeps
its position and gets the new value, a new key is appended. -/
def recordSet : List (String × String) → String → String → List (String × String)
  | [], k, v => [(k, v)]
  | (k0, v0) :: rest, k, v =>
    if k0 == k then (k0, v) :: rest else (k0, v0) :: recordSet rest k v

/-- The per-field branch of `validateForm` in FormFiller (part_003):
label fields and fields whose `required` is not truthy are skipped;
otherwise an absent / falsy / empty / whitespace-only value is
"`label` is required", and a present value of a number field that
fails `Number` parsing is "`label` must be a valid number". -/
def fieldError_v1 (values : List (String × JSValue)) (f : FormField) : Option String :=
  if !(f.type == FieldType.label) && reqTruthy f then
    let value := List.lookup f.id values
    if !jsTruthyOpt value || value == some (JSValue.vStr "") ||
        (match value with
         | some (JSValue.vStr s) => jsTrim s == ""
         | _ => false) then
      some (f.label ++ " is required")
    else if f.type == FieldType.number && jsNumberIsNaN value then
      some (f.label ++ " must be a valid number")
    else none
  else none

/-- The per-field branch of `validateForm` in part_000: the required
test is `!value && value !== 0 && value !== false`, so an explicit `0`
or `false` counts as filled; the number test is the same
`isNaN(Number(value))`. -/
def fieldError_v0 (values : List (String × JSValue)) (f : FormField) : Option String :=
  if !(f.type == FieldType.label) && reqTruthy f then
    let value := List.lookup f.id values
    if !jsTruthyOpt value && !(value == some (JSValue.vNum 0))
        && !(value == some (JSValue.vBool false)) then
      some "This field is required"
    else if f.type == FieldType.number && jsNumberIsNaN value then
      some "Please enter a valid number"
    else none
  else none

/-- The nested `forEach` loops of both validators: fold over all fields
in section order, assigning into the `newErrors` record whenever the
per-field branch produced a message. -/
def validateFold (fe : FormField → Option String) (fs : List FormField)
    (acc : List (String × String)) : List (String × String) :=
  fs.foldl (fun m f =>
    match fe f with
    | some msg => recordSet m f.id msg
    | none => m) acc

/-- `validateForm` of FormFiller (part_003): the `newErrors` record it
builds from an empty record. -/
def validateForm_v1 (t : FormTemplate) (values : List (String × JSValue)) :
    List (String × String) :=
  validateFold (fieldError_v1 values) (allFields t) []

/-- `validateForm` of part_000: the `newErrors` record it builds from an
empty record. -/
def validateForm_v0 (t : FormTemplate) (values : List (String × JSValue)) :
    List (String × String) :=
  validateFold (fieldError_v0 values) (allFields t) []

/-- JavaScript `arr.findIndex(p)`, with the not-found `-1` modelled as
`none`. -/
def jsFindIndex (p : α → Bool) : List α → Option Nat
  | [] => none
  | a :: rest => if p a then some 0 else (jsFindIndex p rest).map (· + 1)

/-- `saveTemplate` of AppContext.tsx: refresh `updatedAt`, replace in
place when the id already exists, otherwise append and — when the list
then exceeds 5 — keep only the last 5 (`newTemplates.slice(-5)`). -/
def saveTemplateCtx (templates : List FormTemplate) (template : FormTemplate)
    (now : String) : List FormTemplate :=
  let updatedTemplate := { template with updatedAt := now }
  match jsFindIndex (fun t => t.id == template.id) templates with
  | some i => templates.set i updatedTemplate
  | none =>
    let newTemplates := templates ++ [updatedTemplate]
    if newTemplates.length > 5 then
      newTemplates.drop (newTemplates.length - 5)
    else newTemplates

/-- `saveTemplate` of part_000: replace in place when the id exists
(refreshing `updatedAt`); otherwise, when already holding 5, show the
"Template Limit Reached" toast and return the list unchanged, else
append the template as given.  The boolean component records whether
the limit toast was shown. -/
def saveTemplate_v0 (prev : List FormTemplate) (template : FormTemplate)
    (now : String) : List FormTemplate × Bool :=
  match jsFindIndex (fun t => t.id == template.id) prev with
  | some i => (prev.set i { template with updatedAt := now }, false)
  | none =>
    if prev.length ≥ 5 then (prev, true)
    else (prev ++ [template], false)

/-- `deleteTemplate` of AppContext.tsx acting on the provider state
(template list, submission list): it filters the templates only; the
submission state is not touched by this handler. -/
def deleteTemplateCtx (templates : List FormTemplate)
    (submissions : List FormSubmission) (templateId : String) :
    List FormTemplate × List FormSubmission :=
  (templates.filter (fun t => !(t.id == templateId)), submissions)

/-- `deleteTemplate` of part_000: filters the templates and also removes
the related submissions. -/
def deleteTemplate_v0 (templates : List FormTemplate)
    (submissions : List FormSubmission) (templateId : String) :
    List FormTemplate × List FormSubmission :=
  (templates.filter (fun t => !(t.id == templateId)),
   submissions.filter (fun s => !(s.templateId == templateId)))

/-- `isTemplateValid` of TemplateBuilder.tsx: non-blank name, at least
one section, and some section with at least one field. -/
def isTemplateValid (t : FormTemplate) : Bool :=
  !(jsTrim t.name == "") && decide (0 < t.sections.length)
    && t.sections.any (fun s => decide (0 < s.fields.length))

/-- `handleSave` of TemplateBuilder.tsx acting on the repository list:
an early return when `isTemplateValid` is false, otherwise the context
`saveTemplate` runs.  The boolean component records whether the save
proceeded (saveTemplate/onSave were called). -/
def handleSave_builder (repo : List FormTemplate) (t : FormTemplate)
    (now : String) : List FormTemplate × Bool :=
  if isTemplateValid t then (saveTemplateCtx repo t now, true) else (repo, false)

/-- `handleSave` of part_000: it early-returns (with a toast) when the
name is blank or there are zero sections, and otherwise calls
`onSave(currentTemplate)`.  The boolean is whether the save proceeded.
No check on any section having fields is performed. -/
def handleSave_v0 (t : FormTemplate) : Bool :=
  !(jsTrim t.name == "") && !(t.sections.length == 0)

/-- Outcome of one resolving action of the unsaved-changes dialog:
the repository list afterwards, whether a repository save call was
made, and whether the session was left (`onBack` ran). -/
structure ExitOutcome where
  repo : List FormTemplate
  savedToRepository : Bool
  exited : Bool
deriving DecidableEq

/-- The "Save & Exit" action of the TemplateBuilder.tsx alert dialog:
`onClick={() => { handleSave(); onBack(); }}` — `handleSave` runs
(which early-returns when the template is invalid) and then `onBack`
runs unconditionally. -/
def saveAndExitAction (repo : List FormTemplate) (t : FormTemplate)
    (now : String) : ExitOutcome :=
  let r := handleSave_builder repo t now
  { repo := r.1, savedToRepository := r.2, exited := true }

/-- A partial field spec (`Partial<FormField>`) as passed to
`addFieldToSection`. -/
structure PartialField where
  id : Option String := none
  type : Option FieldType := none
  label : Option String := none
  labelStyle : Option LabelStyle := none
  options : Option (List String) := none
  required : Option Bool := none
deriving DecidableEq

/-- JavaScript `a || b` on an optional string: an absent or empty
string falls back to the default. -/
def jsOrStr (v : Option String) (d : String) : String :=
  match v with
  | some s => if s == "" then d else s
  | none => d

/-- The completed field built by `addFieldToSection` of the first
TemplateBuilder.tsx variant: `required: field.required ?? false`,
`labelStyle` copied as given (no default), and the extra
`value: field.type === 'boolean' ? false : ''` slot. -/
def completeField_v1 (field : PartialField) (now : String) : FormField :=
  { id := jsOrStr field.id ("field_" ++ now)
    type := field.type.getD FieldType.text
    label := jsOrStr field.label "New Field"
    labelStyle := field.labelStyle
    options := field.options
    required := some (field.required.getD false)
    value := some (if field.type == some FieldType.bool then JSValue.vBool false
      else JSValue.vStr "") }

/-- The completed field built by `addFieldToSection` of the second
TemplateBuilder.tsx variant: `required: field.required ?? true`,
`labelStyle` copied as given (no default), and no `value` slot. -/
def completeField_v2 (field : PartialField) (now : String) : FormField :=
  { id := jsOrStr field.id ("field_" ++ now)
    type := field.type.getD FieldType.text
    label := jsOrStr field.label ""
    labelStyle := field.labelStyle
    options := field.options
    required := some (field.required.getD true)
    value := none }

/-- `addFieldToSection` of the first TemplateBuilder.tsx variant:
append the completed field to the fields of the section whose id
matches, leaving other sections alone. -/
def addFieldToSection_v1 (t : FormTemplate) (sectionId : String)
    (field : PartialField) (now : String) : FormTemplate :=
  { t with sections := t.sections.map fun s =>
      if s.id == sectionId then
        { s with fields := s.fields ++ [completeField_v1 field now] }
      else s }

/-- `addFieldToSection` of the second TemplateBuilder.tsx variant. -/
def addFieldToSection_v2 (t : FormTemplate) (sectionId : String)
    (field : PartialField) (now : String) : FormTemplate :=
  { t with sections := t.sections.map fun s =>
      if s.id == sectionId then
        { s with fields := s.fields ++ [completeField_v2 field now] }
      else s }

/-- JavaScript `arr.splice(i, 1)`: the remaining array and the removed
element; with `i` past the end nothing is removed and the destructured
`[reorderedField]` is `undefined` (`none`). -/
def jsSpliceRemoveOne (l : List α) (i : Nat) : List α × Option α :=
  if i < l.length then (l.take i ++ l.drop (i + 1), l[i]?) else (l, none)

/-- JavaScript `arr.splice(i, 0, x)`: insert `x` at index `i`, clamped
to the array length. -/
def jsSpliceInsert (l : List α) (i : Nat) (x : α) : List α :=
  l.take i ++ x :: l.drop i

/-- The field-list core of `handleDragEnd` / `onDragEnd`: splice the
field out at `source.index` and splice the removed value back in at
`destination.index`.  The JavaScript array may end up holding
`undefined` (when `source.index` was out of bounds), so the result is a
list of optional fields; the original array corresponds to
`fields.map some`. -/
def dragEndFields (fields : List FormField) (sourceIndex destIndex : Nat) :
    List (Option FormField) :=
  let r := jsSpliceRemoveOne fields sourceIndex
  jsSpliceInsert (r.1.map some) destIndex r.2

/-- The dirty check of TemplateBuilder.tsx,
`JSON.stringify(currentTemplate) !== JSON.stringify(originalTemplate)`,
modelled as structural inequality (the serialization is canonical and
omits absent attributes, as the `Option` model does). -/
def isDirty (current original : FormTemplate) : Bool :=
  !(current == original)

/-! ## General lemmas about the embedded operations -/

theorem lookup_recordSet (m : List (String × String)) (k v x : String) :
    List.lookup x (recordSet m k v) = if x = k then some v else List.lookup x m := by
  induction m with
  | nil =>
    by_cases hx : x = k
    · simp [recordSet, List.lookup, hx]
    · simp [recordSet, List.lookup, hx, beq_eq_false_iff_ne.mpr hx]
  | cons p rest ih =>
    obtain ⟨k0, v0⟩ := p
    by_cases hk : k0 = k
    · subst hk
      by_cases hx : x = k0
      · simp [recordSet, List.lookup, hx]
      · simp [recordSet, List.lookup, hx, beq_eq_false_iff_ne.mpr hx]
    · have hk' : (k0 == k) = false := beq_eq_false_iff_ne.mpr hk
      by_cases hx : x = k0
      · subst hx
        simp [recordSet, List.lookup, hk', hk]
      · have hx' : (x == k0) = false := beq_eq_false_iff_ne.mpr hx
        simp [recordSet, List.lookup, hk', hx', ih]

theorem lookup_validateFold_skip (fe : FormField → Option String)
    (fs : List FormField) (x : String)
    (h : ∀ f ∈ fs, f.id = x → fe f = none) (acc : List (String × String)) :
    List.lookup x (validateFold fe fs acc) = List.lookup x acc := by
  induction fs generalizing acc with
  | nil => rfl
  | cons f rest ih =>
    have hrest : ∀ g ∈ rest, g.id = x → fe g = none :=
      fun g hg => h g (List.mem_cons_of_mem _ hg)
    cases hfe : fe f with
    | none =>
      simpa [validateFold, List.foldl_cons, hfe] using ih hrest acc
    | some msg =>
      have hid : f.id ≠ x := by
        intro hx
        exact absurd (h f (List.mem_cons_self f rest) hx) (by simp [hfe])
      have step : validateFold fe (f :: rest) acc
          = validateFold fe rest (recordSet acc f.id msg) := by
        simp [validateFold, List.foldl_cons, hfe]
      rw [step, ih hrest, lookup_recordSet, if_neg (Ne.symm hid)]

theorem lookup_validateFold_hit (fe : FormField → Option String)
    {fs : List FormField} {f : FormField} {msg : String}
    (hp : fs.Pairwise (fun a b => a.id ≠ b.id)) (hf : f ∈ fs)
    (hfe : fe f = some msg) (acc : List (String × String)) :
    List.lookup f.id (validateFold fe fs acc) = some msg := by
  induction hp generalizing acc with
  | nil => cases hf
  | @cons a l h1 h2 ih =>
    rcases List.mem_cons.mp hf with rfl | hmem
    · have step : validateFold fe (f :: l) acc
          = validateFold fe l (recordSet acc f.id msg) := by
        simp [validateFold, List.foldl_cons, hfe]
      have hskip : ∀ g ∈ l, g.id = f.id → fe g = none := by
        intro g hg hgid
        exact absurd hgid.symm (h1 g hg)
      rw [step, lookup_validateFold_skip fe l f.id hskip, lookup_recordSet]
      simp
    · cases hfa : fe a with
      | none =>
        have step : validateFold fe (a :: l) acc = validateFold fe l acc := by
          simp [validateFold, List.foldl_cons, hfa]
        rw [step]
        exact ih hmem acc
      | some m0 =>
        have step : validateFold fe (a :: l) acc
            = validateFold fe l (recordSet acc a.id m0) := by
          simp [validateFold, List.foldl_cons, hfa]
        rw [step]
        exact ih hmem (recordSet acc a.id m0)

theorem pairwise_id_unique {fs : List FormField}
    (hp : fs.Pairwise (fun a b => a.id ≠ b.id)) {f g : FormField}
    (hf : f ∈ fs) (hg : g ∈ fs) (hid : f.id = g.id) : f = g := by
  induction hp with
  | nil => cases hf
  | @cons a l h1 h2 ih =>
    rcases List.mem_cons.mp hf with rfl | hf' <;>
      rcases List.mem_cons.mp hg with rfl | hg'
    · rfl
    · exact absurd hid (h1 g hg')
    · exact absurd hid.symm (h1 f hf')
    · exact ih hf' hg'

theorem fieldError_v1_absent (values : List (String × JSValue)) (f : FormField)
    (ht : f.type ≠ FieldType.label) (hr : reqTruthy f = true)
    (hv : List.lookup f.id values = none) :
    fieldError_v1 values f = some (f.label ++ " is required") := by
  simp [fieldError_v1, hv, hr, beq_eq_false_iff_ne.mpr ht, jsTruthyOpt]

theorem fieldError_v1_boolFalse (values : List (String × JSValue)) (f : FormField)
    (ht : f.type = FieldType.bool) (hr : reqTruthy f = true)
    (hv : List.lookup f.id values = some (JSValue.vBool false)) :
    fieldError_v1 values f = some (f.label ++ " is required") := by
  simp [fieldError_v1, hv, hr, ht, jsTruthyOpt, JSValue.truthy]

theorem fieldError_v0_boolFalse (values : List (String × JSValue)) (f : FormField)
    (ht : f.type = FieldType.bool) (hr : reqTruthy f = true)
    (hv : List.lookup f.id values = some (JSValue.vBool false)) :
    fieldError_v0 values f = none := by
  simp [fieldError_v0, hv, hr, ht, jsTruthyOpt, JSValue.truthy, jsNumberIsNaN]

theorem fieldError_v0_absent (values : List (String × JSValue)) (f : FormField)
    (ht : f.type ≠ FieldType.label) (hr : reqTruthy f = true)
    (hv : List.lookup f.id values = none) :
    fieldError_v0 values f = some "This field is required" := by
  simp [fieldError_v0, hv, hr, beq_eq_false_iff_ne.mpr ht, jsTruthyOpt]

theorem fieldError_v1_numberBad (values : List (String × JSValue)) (f : FormField)
    (ht : f.type = FieldType.number) (hr : reqTruthy f = true) (s : String)
    (hv : List.lookup f.id values = some (JSValue.vStr s))
    (hne : s ≠ "") (htr : jsTrim s ≠ "") (hnum : isJsNumericString s = false) :
    fieldError_v1 values f = some (f.label ++ " must be a valid number") := by
  simp [fieldError_v1, hv, hr, ht, jsTruthyOpt, JSValue.truthy, jsNumberIsNaN,
    hne, htr, hnum, beq_eq_false_iff_ne.mpr hne, beq_eq_false_iff_ne.mpr htr]

theorem fieldError_v0_numberBad (values : List (String × JSValue)) (f : FormField)
    (ht : f.type = FieldType.number) (hr : reqTruthy f = true) (s : String)
    (hv : List.lookup f.id values = some (JSValue.vStr s))
    (hne : s ≠ "") (hnum : isJsNumericString s = false) :
    fieldError_v0 values f = some "Please enter a valid number" := by
  simp [fieldError_v0, hv, hr, ht, jsTruthyOpt, JSValue.truthy, jsNumberIsNaN,
    hne, hnum, beq_eq_false_iff_ne.mpr hne]

theorem fieldError_v1_notRequired (values : List (String × JSValue)) (f : FormField)
    (hr : reqTruthy f = false) : fieldError_v1 values f = none := by
  simp [fieldError_v1, hr]

theorem fieldError_v0_notRequired (values : List (String × JSValue)) (f : FormField)
    (hr : reqTruthy f = false) : fieldError_v0 values f = none := by
  simp [fieldError_v0, hr]

theorem fieldError_v1_label (values : List (String × JSValue)) (f : FormField)
    (ht : f.type = FieldType.label) : fieldError_v1 values f = none := by
  simp [fieldError_v1, ht]

theorem fieldError_v0_label (values : List (String × JSValue)) (f : FormField)
    (ht : f.type = FieldType.label) : fieldError_v0 values f = none := by
  simp [fieldError_v0, ht]


end FormBuilder

namespace FormBuilder

/-- Sample template for C9: one label field and two required non-label
fields with distinct ids. -/
def c9LabelField : FormField := { id := "l1", type := FieldType.label, label := "Heading" }

def c9TextField : FormField :=
  { id := "x1", type := FieldType.text, label := "Name", required := some true }

def c9NumField : FormField :=
  { id := "n1", type := FieldType.number, label := "Age", required := some true }

def c9Template : FormTemplate :=
  { id := "t9", name := "T9"
    sections := [{ id := "s1", title := "A", fields := [c9LabelField, c9TextField] },
                 { id := "s2", title := "B", fields := [c9NumField] }]
    createdAt := "c", updatedAt := "u" }

/-- C9: for a template whose fields have pairwise distinct ids and in
which every non-label field is required, validating against the empty
value map (in the `validateForm` of either variant) yields an error entry
for every non-label field and no entry for any label field. -/
theorem C9_validate_empty_map (t : FormTemplate)
    (hids : (allFields t).Pairwise (fun a b => a.id ≠ b.id))
    (hreq : ∀ f ∈ allFields t, f.type ≠ FieldType.label → f.required = some true) :
    (∀ f ∈ allFields t, f.type ≠ FieldType.label →
        List.lookup f.id (validateForm_v1 t []) = some (f.label ++ " is required")
          ∧ List.lookup f.id (validateForm_v0 t []) = some "This field is required")
      ∧ (∀ f ∈ allFields t, f.type = FieldType.label →
        List.lookup f.id (validateForm_v1 t []) = none
          ∧ List.lookup f.id (validateForm_v0 t []) = none) := by
  constructor
  · intro f hf ht
    have hr : reqTruthy f = true := by simp [reqTruthy, hreq f hf ht]
    have hv : List.lookup f.id ([] : List (String × JSValue)) = none := rfl
    exact ⟨lookup_validateFold_hit (fieldError_v1 []) hids hf
        (fieldError_v1_absent [] f ht hr hv) [],
      lookup_validateFold_hit (fieldError_v0 []) hids hf
        (fieldError_v0_absent [] f ht hr hv) []⟩
  · intro f hf ht
    have hskip1 : ∀ g ∈ allFields t, g.id = f.id → fieldError_v1 [] g = none := by
      intro g hg hgid
      have hgf : g = f := pairwise_id_unique hids hg hf hgid
      exact fieldError_v1_label [] g (hgf ▸ ht)
    have hskip0 : ∀ g ∈ allFields t, g.id = f.id → fieldError_v0 [] g = none := by
      intro g hg hgid
      have hgf : g = f := pairwise_id_unique hids hg hf hgid
      exact fieldError_v0_label [] g (hgf ▸ ht)
    exact ⟨lookup_validateFold_skip (fieldError_v1 []) (allFields t) f.id hskip1 [],
      lookup_validateFold_skip (fieldError_v0 []) (allFields t) f.id hskip0 []⟩

/-- Witness for C9 at a concrete template. -/
theorem C9_validate_empty_map_witness :
    (List.lookup c9TextField.id (validateForm_v1 c9Template [])
        = some (c9TextField.label ++ " is required"))
      ∧ List.lookup c9LabelField.id (validateForm_v1 c9Template []) = none :=
  ⟨((C9_validate_empty_map c9Template (by decide) (by decide)).1
      c9TextField (by decide) (by decide)).1,
   ((C9_validate_empty_map c9Template (by decide) (by decide)).2
      c9LabelField (by decide) (by decide)).1⟩

/-- Required boolean field and its one-field template, for C3. -/
def boolField : FormField :=
  { id := "f1", type := FieldType.bool, label := "Agree", required := some true }

def boolTemplate : FormTemplate :=
  { id := "t3", name := "T3"
    sections := [{ id := "s1", title := "S", fields := [boolField] }]
    createdAt := "c", updatedAt := "u" }

/-- C3 counterexample: in the FormFiller (part_003) validator, a
required boolean field whose value is the explicit boolean `false` DOES
get an error entry — `!value` treats `false` as missing — contradicting
the claim that the explicit `false` produces no error. -/
theorem C3_counterexample :
    ¬ (List.lookup boolField.id
        (validateForm_v1 boolTemplate [(boolField.id, JSValue.vBool false)]) = none) := by
  decide

/-- C3 amended: for a required boolean field (distinct field ids), the
part_000 validator accepts the explicit `false` and errors only on a
missing entry, as the claim states; the part_003 validator reports
"required" both for the explicit `false` and for a missing entry. -/
theorem C3_amended_boolean_required (t : FormTemplate)
    (values : List (String × JSValue)) (f : FormField)
    (hids : (allFields t).Pairwise (fun a b => a.id ≠ b.id))
    (hf : f ∈ allFields t) (ht : f.type = FieldType.bool)
    (hreq : f.required = some true) :
    (List.lookup f.id values = some (JSValue.vBool false) →
        List.lookup f.id (validateForm_v0 t values) = none
          ∧ List.lookup f.id (validateForm_v1 t values)
              = some (f.label ++ " is required"))
      ∧ (List.lookup f.id values = none →
        List.lookup f.id (validateForm_v0 t values) = some "This field is required"
          ∧ List.lookup f.id (validateForm_v1 t values)
              = some (f.label ++ " is required")) := by
  have hr : reqTruthy f = true := by simp [reqTruthy, hreq]
  have htne : f.type ≠ FieldType.label := by simp [ht]
  constructor
  · intro hv
    have hskip0 : ∀ g ∈ allFields t, g.id = f.id → fieldError_v0 values g = none := by
      intro g hg hgid
      have hgf : g = f := pairwise_id_unique hids hg hf hgid
      subst hgf
      exact fieldError_v0_boolFalse values g ht hr hv
    exact ⟨lookup_validateFold_skip (fieldError_v0 values) (allFields t) f.id hskip0 [],
      lookup_validateFold_hit (fieldError_v1 values) hids hf
        (fieldError_v1_boolFalse values f ht hr hv) []⟩
  · intro hv
    exact ⟨lookup_validateFold_hit (fieldError_v0 values) hids hf
        (fieldError_v0_absent values f htne hr hv) [],
      lookup_validateFold_hit (fieldError_v1 values) hids hf
        (fieldError_v1_absent values f htne hr hv) []⟩

/-- Witness for the C3 amended theorem at a concrete template. -/
theorem C3_amended_witness :
    (List.lookup boolField.id
        (validateForm_v0 boolTemplate [(boolField.id, JSValue.vBool false)]) = none)
      ∧ List.lookup boolField.id
          (validateForm_v1 boolTemplate [(boolField.id, JSValue.vBool false)])
          = some (boolField.label ++ " is required") :=
  (C3_amended_boolean_required boolTemplate [(boolField.id, JSValue.vBool false)]
    boolField (by decide) (by decide) (by decide) (by decide)).1 (by decide)

/-- Non-required number field and its template, for C4. -/
def c4OptNumField : FormField :=
  { id := "n1", type := FieldType.number, label := "Age", required := some false }

def c4OptTemplate : FormTemplate :=
  { id := "t4", name := "T4"
    sections := [{ id := "s1", title := "S", fields := [c4OptNumField] }]
    createdAt := "c", updatedAt := "u" }

/-- C4 counterexample: both validators check number parseability only
inside the `field.required` branch, so a non-required number field with
the present unparseable value `"abc"` produces NO error entry,
contradicting the claimed "regardless of whether the field is marked
required". -/
theorem C4_counterexample :
    validateForm_v1 c4OptTemplate [(c4OptNumField.id, JSValue.vStr "abc")] = []
      ∧ validateForm_v0 c4OptTemplate [(c4OptNumField.id, JSValue.vStr "abc")] = [] := by
  decide

/-- C4 amended: the parse check runs only for required fields — a
required number field with a present, non-blank value that fails
`Number` parsing gets the "valid number" error in both validators,
while a field whose `required` is not truthy is never checked and gets
no error entry at all. -/
theorem C4_amended_number_required_only (t : FormTemplate)
    (values : List (String × JSValue)) (f : FormField)
    (hids : (allFields t).Pairwise (fun a b => a.id ≠ b.id))
    (hf : f ∈ allFields t) (ht : f.type = FieldType.number) :
    (∀ s : String, f.required = some true →
        List.lookup f.id values = some (JSValue.vStr s) → s ≠ "" → jsTrim s ≠ "" →
        isJsNumericString s = false →
        List.lookup f.id (validateForm_v1 t values)
            = some (f.label ++ " must be a valid number")
          ∧ List.lookup f.id (validateForm_v0 t values)
              = some "Please enter a valid number")
      ∧ (reqTruthy f = false →
        List.lookup f.id (validateForm_v1 t values) = none
          ∧ List.lookup f.id (validateForm_v0 t values) = none) := by
  constructor
  · intro s hreq hv hne htr hnum
    have hr : reqTruthy f = true := by simp [reqTruthy, hreq]
    exact ⟨lookup_validateFold_hit (fieldError_v1 values) hids hf
        (fieldError_v1_numberBad values f ht hr s hv hne htr hnum) [],
      lookup_validateFold_hit (fieldError_v0 values) hids hf
        (fieldError_v0_numberBad values f ht hr s hv hne hnum) []⟩
  · intro hr
    have hskip1 : ∀ g ∈ allFields t, g.id = f.id → fieldError_v1 values g = none := by
      intro g hg hgid
      have hgf : g = f := pairwise_id_unique hids hg hf hgid
      subst hgf
      exact fieldError_v1_notRequired values g hr
    have hskip0 : ∀ g ∈ allFields t, g.id = f.id → fieldError_v0 values g = none := by
      intro g hg hgid
      have hgf : g = f := pairwise_id_unique hids hg hf hgid
      subst hgf
      exact fieldError_v0_notRequired values g hr
    exact ⟨lookup_validateFold_skip (fieldError_v1 values) (allFields t) f.id hskip1 [],
      lookup_validateFold_skip (fieldError_v0 values) (allFields t) f.id hskip0 []⟩

/-- Required number field and its template, for the C4 witness. -/
def c4ReqNumField : FormField :=
  { id := "n2", type := FieldType.number, label := "Age", required := some true }

def c4ReqTemplate : FormTemplate :=
  { id := "t4r", name := "T4r"
    sections := [{ id := "s1", title := "S", fields := [c4ReqNumField] }]
    createdAt := "c", updatedAt := "u" }

/-- Witness for the C4 amended theorem at concrete templates. -/
theorem C4_amended_witness :
    (List.lookup c4ReqNumField.id
        (validateForm_v1 c4ReqTemplate [(c4ReqNumField.id, JSValue.vStr "abc")])
        = some (c4ReqNumField.label ++ " must be a valid number"))
      ∧ List.lookup c4OptNumField.id
          (validateForm_v1 c4OptTemplate [(c4OptNumField.id, JSValue.vStr "abc")]) = none :=
  ⟨((C4_amended_number_required_only c4ReqTemplate
      [(c4ReqNumField.id, JSValue.vStr "abc")] c4ReqNumField
      (by decide) (by decide) (by decide)).1 "abc" (by decide) (by decide)
      (by decide) (by decide) (by decide)).1,
   ((C4_amended_number_required_only c4OptTemplate
      [(c4OptNumField.id, JSValue.vStr "abc")] c4OptNumField
      (by decide) (by decide) (by decide)).2 (by decide)).1⟩

theorem jsFindIndex_eq_none {p : α → Bool} {l : List α}
    (h : ∀ x ∈ l, p x = false) : jsFindIndex p l = none := by
  induction l with
  | nil => rfl
  | cons a rest ih =>
    simp [jsFindIndex, h a (List.mem_cons_self a rest),
      ih fun x hx => h x (List.mem_cons_of_mem a hx)]

theorem drop_one_append (l m : List α) (h : l ≠ []) :
    (l ++ m).drop 1 = l.drop 1 ++ m := by
  cases l with
  | nil => exact absurd rfl h
  | cons a rest => simp

/-- A small concrete template with a given id, for counterexamples. -/
def mkT (i : String) : FormTemplate :=
  { id := i, name := "T" ++ i, sections := [], createdAt := "c", updatedAt := "u" }

def fiveTemplates : List FormTemplate :=
  [mkT "1", mkT "2", mkT "3", mkT "4", mkT "5"]

/-- C1 counterexample: the AppContext.tsx `saveTemplate`, called on a
repository of 5 with a fresh id, does not fail — it appends the new
template and evicts the oldest (`slice(-5)`), so the resulting list is
not the original 5. -/
theorem C1_counterexample :
    saveTemplateCtx fiveTemplates (mkT "6") "now"
        = [mkT "2", mkT "3", mkT "4", mkT "5", { mkT "6" with updatedAt := "now" }]
      ∧ saveTemplateCtx fiveTemplates (mkT "6") "now" ≠ fiveTemplates := by
  decide

/-- C1 amended: on a repository of 5 and a template with a fresh id,
the part_000 `saveTemplate` shows the limit toast and leaves the list
unchanged (as the claim states), while the AppContext.tsx `saveTemplate`
appends the new template (with refreshed `updatedAt`) and drops the
oldest, keeping the most recent 5. -/
theorem C1_amended_limit (prev : List FormTemplate) (t : FormTemplate) (now : String)
    (hlen : prev.length = 5) (hfresh : ∀ x ∈ prev, x.id ≠ t.id) :
    saveTemplate_v0 prev t now = (prev, true)
      ∧ saveTemplateCtx prev t now = prev.drop 1 ++ [{ t with updatedAt := now }] := by
  have hnone : jsFindIndex (fun x => x.id == t.id) prev = none :=
    jsFindIndex_eq_none fun x hx => beq_eq_false_iff_ne.mpr (hfresh x hx)
  have hne : prev ≠ [] := by
    intro h
    rw [h] at hlen
    exact absurd hlen (by decide)
  constructor
  · simp [saveTemplate_v0, hnone, hlen]
  · simp [saveTemplateCtx, hnone, hlen, drop_one_append _ _ hne]

/-- Witness for the C1 amended theorem at a concrete repository. -/
theorem C1_amended_witness :
    saveTemplate_v0 fiveTemplates (mkT "6") "now" = (fiveTemplates, true)
      ∧ saveTemplateCtx fiveTemplates (mkT "6") "now"
          = fiveTemplates.drop 1 ++ [{ mkT "6" with updatedAt := "now" }] :=
  C1_amended_limit fiveTemplates (mkT "6") "now" (by decide) (by decide)

def c2Template : FormTemplate := mkT "1"

def c2Submission : FormSubmission := { templateId := "1", data := [], submittedAt := "s" }

/-- C2 counterexample: the AppContext.tsx `deleteTemplate` removes the
template but leaves the submission whose `templateId` matches — there
is no cascade in that variant. -/
theorem C2_counterexample :
    (deleteTemplateCtx [c2Template] [c2Submission] "1").1 = []
      ∧ (deleteTemplateCtx [c2Template] [c2Submission] "1").2 = [c2Submission]
      ∧ c2Submission.templateId = "1" := by
  decide

/-- C2 amended: both variants remove exactly the templates with the
given id (a no-op when absent, never an error); the part_000 variant
also removes exactly the submissions whose `templateId` matches, while
the AppContext.tsx variant leaves the submission list untouched. -/
theorem C2_amended_delete (templates : List FormTemplate)
    (subs : List FormSubmission) (tid : String) :
    ((∀ x ∈ templates, x.id ≠ tid) →
        (deleteTemplate_v0 templates subs tid).1 = templates
          ∧ (deleteTemplateCtx templates subs tid).1 = templates)
      ∧ (∀ x, x ∈ (deleteTemplate_v0 templates subs tid).1 ↔ x ∈ templates ∧ x.id ≠ tid)
      ∧ (∀ x, x ∈ (deleteTemplateCtx templates subs tid).1 ↔ x ∈ templates ∧ x.id ≠ tid)
      ∧ (∀ s, s ∈ (deleteTemplate_v0 templates subs tid).2 ↔ s ∈ subs ∧ s.templateId ≠ tid)
      ∧ (deleteTemplateCtx templates subs tid).2 = subs := by
  refine ⟨?_, ?_, ?_, ?_, rfl⟩
  · intro h
    constructor
    · simp only [deleteTemplate_v0]
      exact List.filter_eq_self.mpr fun x hx => by simp [h x hx]
    · simp only [deleteTemplateCtx]
      exact List.filter_eq_self.mpr fun x hx => by simp [h x hx]
  · intro x
    simp [deleteTemplate_v0, List.mem_filter]
  · intro x
    simp [deleteTemplateCtx, List.mem_filter]
  · intro s
    simp [deleteTemplate_v0, List.mem_filter]

/-- Witness for the C2 amended theorem: deleting an absent id is a
no-op in both variants. -/
theorem C2_amended_witness :
    (deleteTemplate_v0 [c2Template] [c2Submission] "9").1 = [c2Template]
      ∧ (deleteTemplateCtx [c2Template] [c2Submission] "9").1 = [c2Template] :=
  (C2_amended_delete [c2Template] [c2Submission] "9").1 (by decide)

/-- A named template with one section that has no fields: the validity
conjunction fails, but part_000 `handleSave` still proceeds. -/
def c5EmptyFieldsTemplate : FormTemplate :=
  { id := "t5", name := "T5"
    sections := [{ id := "s1", title := "S", fields := [] }]
    createdAt := "c", updatedAt := "u" }

/-- C5 counterexample: on a named template whose only section has no
fields the validity conjunction fails, yet the part_000 `handleSave`
does not refuse (it checks only the name and the section count), so
save is NOT refused exactly when the conjunction fails. -/
theorem C5_counterexample :
    isTemplateValid c5EmptyFieldsTemplate = false
      ∧ handleSave_v0 c5EmptyFieldsTemplate = true := by
  decide

/-- C5 amended: `isTemplateValid` is exactly the claimed conjunction,
and the TemplateBuilder.tsx `handleSave` proceeds exactly when it
holds (leaving the repository untouched otherwise); the part_000
`handleSave`, however, refuses only on a blank name or zero sections,
not on the all-sections-empty case. -/
theorem C5_amended_validity (t : FormTemplate) (repo : List FormTemplate) (now : String) :
    (isTemplateValid t = true ↔
        (jsTrim t.name ≠ "" ∧ t.sections ≠ [] ∧ ∃ s ∈ t.sections, s.fields ≠ []))
      ∧ (handleSave_builder repo t now).2 = isTemplateValid t
      ∧ (isTemplateValid t = false → (handleSave_builder repo t now).1 = repo)
      ∧ (handleSave_v0 t = true ↔ (jsTrim t.name ≠ "" ∧ t.sections ≠ [])) := by
  refine ⟨?_, ?_, ?_, ?_⟩
  · simp [isTemplateValid, List.any_eq_true, List.length_pos, and_assoc]
  · by_cases h : isTemplateValid t <;> simp [handleSave_builder, h]
  · intro h
    simp [handleSave_builder, h]
  · simp [handleSave_v0, List.length_eq_zero]

/-- Witness for the C5 amended theorem at a concrete template. -/
theorem C5_amended_witness :
    (handleSave_builder [] c5EmptyFieldsTemplate "now").1 = [] :=
  (C5_amended_validity c5EmptyFieldsTemplate [] "now").2.2.1 (by decide)

/-- A named, dirty-able template with one empty section, invalid to
save, for C6. -/
def c6InvalidTemplate : FormTemplate :=
  { id := "t6", name := "T6"
    sections := [{ id := "s1", title := "S", fields := [] }]
    createdAt := "c", updatedAt := "u" }

/-- C6 counterexample: on an invalid working copy the "Save & Exit"
action makes no repository call, but `onBack` still runs — the session
is left even though the save was refused, contradicting "the user
remains in the session". -/
theorem C6_counterexample :
    isTemplateValid c6InvalidTemplate = false
      ∧ saveAndExitAction [] c6InvalidTemplate "now"
          = { repo := [], savedToRepository := false, exited := true } := by
  decide

/-- C6 amended: "Save & Exit" performs no repository call when the
working copy is invalid, but it exits unconditionally — the exit does
NOT wait for a successful save; when the copy is valid, the save
happens and the session is also left. -/
theorem C6_amended_save_exit (repo : List FormTemplate) (t : FormTemplate) (now : String) :
    (isTemplateValid t = false →
        saveAndExitAction repo t now
          = { repo := repo, savedToRepository := false, exited := true })
      ∧ (isTemplateValid t = true →
        saveAndExitAction repo t now
          = { repo := saveTemplateCtx repo t now, savedToRepository := true,
              exited := true }) := by
  constructor <;> intro h <;> simp [saveAndExitAction, handleSave_builder, h]

/-- Witness for the C6 amended theorem at a concrete invalid template. -/
theorem C6_amended_witness :
    saveAndExitAction [] c6InvalidTemplate "now"
      = { repo := [], savedToRepository := false, exited := true } :=
  (C6_amended_save_exit [] c6InvalidTemplate "now").1 (by decide)

/-- C7 counterexample: in the first TemplateBuilder.tsx variant,
`addFieldToSection` completes a non-label spec that omits `required`
with `required: false` (the source says `field.required ?? false`), not
`true`; and a label spec omitting `labelStyle` is completed with no
`labelStyle` at all, not `"h2"`. -/
theorem C7_counterexample :
    (completeField_v1 { type := some FieldType.text } "0").required ≠ some true
      ∧ (completeField_v1 { type := some FieldType.label } "0").labelStyle
          ≠ some LabelStyle.h2 := by
  decide

/-- C7 amended: the variant at lines 93-112 defaults an omitted
`required` to `false` and the variant at lines 342-360 defaults it to
`true` (for every type, label included); neither variant defaults
`labelStyle` — it is copied as given; in both variants the completed
field is appended at the end of the field list of the matching section and
other sections are untouched. -/
theorem C7_amended_addField (field : PartialField) (now : String)
    (t : FormTemplate) (sectionId : String) :
    (completeField_v1 field now).required = some (field.required.getD false)
      ∧ (completeField_v2 field now).required = some (field.required.getD true)
      ∧ (completeField_v1 field now).labelStyle = field.labelStyle
      ∧ (completeField_v2 field now).labelStyle = field.labelStyle
      ∧ (∀ s ∈ t.sections, s.id = sectionId →
        { s with fields := s.fields ++ [completeField_v1 field now] }
          ∈ (addFieldToSection_v1 t sectionId field now).sections)
      ∧ (∀ s ∈ t.sections, s.id = sectionId →
        { s with fields := s.fields ++ [completeField_v2 field now] }
          ∈ (addFieldToSection_v2 t sectionId field now).sections)
      ∧ (∀ s ∈ t.sections, s.id ≠ sectionId →
        s ∈ (addFieldToSection_v1 t sectionId field now).sections) := by
  refine ⟨rfl, rfl, rfl, rfl, ?_, ?_, ?_⟩
  · intro s hs hsid
    have hmem := List.mem_map_of_mem
      (fun s : FormSection =>
        if s.id == sectionId then
          { s with fields := s.fields ++ [completeField_v1 field now] }
        else s) hs
    simpa [addFieldToSection_v1, hsid] using hmem
  · intro s hs hsid
    have hmem := List.mem_map_of_mem
      (fun s : FormSection =>
        if s.id == sectionId then
          { s with fields := s.fields ++ [completeField_v2 field now] }
        else s) hs
    simpa [addFieldToSection_v2, hsid] using hmem
  · intro s hs hsid
    have hmem := List.mem_map_of_mem
      (fun s : FormSection =>
        if s.id == sectionId then
          { s with fields := s.fields ++ [completeField_v1 field now] }
        else s) hs
    simpa [addFieldToSection_v1, beq_eq_false_iff_ne.mpr hsid] using hmem

def c7Section : FormSection := { id := "s1", title := "S", fields := [] }

def c7Template : FormTemplate :=
  { id := "t7", name := "T7", sections := [c7Section]
    createdAt := "c", updatedAt := "u" }

/-- Witness for the C7 amended theorem at a concrete template. -/
theorem C7_amended_witness :
    { c7Section with
        fields := c7Section.fields ++ [completeField_v1 { type := some FieldType.text } "0"] }
      ∈ (addFieldToSection_v1 c7Template "s1" { type := some FieldType.text } "0").sections :=
  (C7_amended_addField { type := some FieldType.text } "0" c7Template "s1").2.2.2.2.1
    c7Section (by decide) (by decide)

def c8FieldA : FormField := { id := "a", type := FieldType.text, label := "A" }

def c8FieldB : FormField := { id := "b", type := FieldType.text, label := "B" }

/-- C8 counterexample: the drag handler does no bounds check — with
`fromIndex` past the end the splice removes nothing and re-inserts
`undefined`, and with `toIndex` past the end an in-bounds field is moved
to the end; in both cases the field list changes, contradicting the
claimed no-op. -/
theorem C8_counterexample :
    dragEndFields [c8FieldA] 1 0 ≠ [c8FieldA].map some
      ∧ dragEndFields [c8FieldA] 1 0 = [none, some c8FieldA]
      ∧ dragEndFields [c8FieldA, c8FieldB] 0 2 ≠ [c8FieldA, c8FieldB].map some
      ∧ dragEndFields [c8FieldA, c8FieldB] 0 2 = [some c8FieldB, some c8FieldA] := by
  decide

/-- C8 amended: the reorder never throws (it is a total function), but
an out-of-bounds index is not a no-op: with `fromIndex` out of bounds
the result is one longer than the original and contains an `undefined`
entry; with `fromIndex` in bounds and `toIndex` out of bounds the
dragged field is moved to the end of the list. -/
theorem C8_amended_drag (fields : List FormField) (i j : Nat) :
    (fields.length ≤ i →
        (dragEndFields fields i j).length = fields.length + 1
          ∧ none ∈ dragEndFields fields i j)
      ∧ (∀ h : i < fields.length, fields.length ≤ j →
        dragEndFields fields i j
          = ((fields.take i ++ fields.drop (i + 1)).map some)
              ++ [some (fields.get ⟨i, h⟩)]) := by
  constructor
  · intro h
    have hrem : jsSpliceRemoveOne fields i = (fields, none) := by
      simp [jsSpliceRemoveOne, Nat.not_lt.mpr h]
    constructor
    · simp [dragEndFields, hrem, jsSpliceInsert]
      omega
    · simp [dragEndFields, hrem, jsSpliceInsert]
  · intro h hj
    have hrem : jsSpliceRemoveOne fields i
        = (fields.take i ++ fields.drop (i + 1), some (fields.get ⟨i, h⟩)) := by
      simp [jsSpliceRemoveOne, h, List.getElem?_eq_getElem h]
    have hlen : ((fields.take i ++ fields.drop (i + 1)).map some).length ≤ j := by
      simp [List.length_take, List.length_drop]
      omega
    simp only [dragEndFields, hrem, jsSpliceInsert]
    rw [List.take_of_length_le hlen, List.drop_eq_nil_of_le hlen]

/-- Witness for the C8 amended theorem at concrete field lists. -/
theorem C8_amended_witness :
    ((dragEndFields [c8FieldA] 1 0).length = 2 ∧ none ∈ dragEndFields [c8FieldA] 1 0)
      ∧ dragEndFields [c8FieldA, c8FieldB] 0 2
          = (([c8FieldA, c8FieldB].take 0 ++ [c8FieldA, c8FieldB].drop 1).map some)
              ++ [some ([c8FieldA, c8FieldB].get ⟨0, by decide⟩)] :=
  ⟨(C8_amended_drag [c8FieldA] 1 0).1 (by decide),
   (C8_amended_drag [c8FieldA, c8FieldB] 0 2).2 (by decide) (by decide)⟩

def c10FieldEmptyVal : FormField :=
  { id := "x", type := FieldType.text, label := "X", required := some false
    value := some (JSValue.vStr "") }

def c10FieldOtherVal : FormField :=
  { id := "x", type := FieldType.text, label := "X", required := some false
    value := some (JSValue.vStr "y") }

def c10TemplateA : FormTemplate :=
  { id := "t10", name := "T10"
    sections := [{ id := "s1", title := "S", fields := [c10FieldEmptyVal] }]
    createdAt := "c", updatedAt := "u" }

def c10TemplateB : FormTemplate :=
  { id := "t10", name := "T10"
    sections := [{ id := "s1", title := "S", fields := [c10FieldOtherVal] }]
    createdAt := "c", updatedAt := "u" }

/-- C10: every field completed by the `addFieldToSection` of the first
variant carries a `value` slot — `false` when the type of the
constructed field is boolean, the empty string otherwise — and
the slot participates in the structural dirty comparison: two templates
identical except for the `value` of one field compare as dirty. -/
theorem C10_value_slot :
    (∀ (field : PartialField) (now : String),
        (completeField_v1 field now).value
          = some (if (completeField_v1 field now).type == FieldType.bool
              then JSValue.vBool false else JSValue.vStr ""))
      ∧ isDirty c10TemplateA c10TemplateB = true := by
  constructor
  · intro field now
    cases hft : field.type with
    | none => simp [completeField_v1, hft]
    | some ft => cases ft <;> simp [completeField_v1, hft]
  · decide

end FormBuilder
